import Mathlib

/-!
Verification development for the grain-market dashboard's Data Engine
(`src/dashboard_grainbank_py_learn.py`): a shallow embedding of the
acquisition functions (`get_datalab_trend`, `get_shopping_data`,
`get_blog_data`), the seeded simulation step, and the analytics reducers
(price tiering, HHI, keyword frequency), together with theorems settling
the specification's claims about them.

Modelling conventions:
- The global NumPy pseudo-random generator is modelled as an explicit
  state (`RngState`) threaded through the pipeline; `np.random.seed(42)`
  overwrites that state with the fixed seed.  The concrete generator is
  an abstract deterministic stream (a 64-bit LCG stands in for the
  Mersenne Twister): the claims under study concern determinism, range
  and data-flow of the draws, none of which depends on the particular
  deterministic stream.
- Machine floats appear in the source only in `lprice / (1 - rate/100)`
  and the `x*0.9` / `x*1.5` band bounds; they are modelled as exact
  rational arithmetic followed by the integer truncation the source's
  `astype(int)` / `int(...)` performs.
- Network calls are an oracle `page : Nat -> Option (List ...)`; `none`
  models a non-200 HTTP status.  Each engine function also reports the
  list (or count) of network calls it issued.
-/

/-- State of the process-global pseudo-random generator. -/
abbrev RngState := Nat

/-- One step of the modelled 64-bit generator (an LCG standing in for
NumPy's seeded Mersenne Twister: any fixed deterministic stream has the
properties the claims talk about). -/
def rngNext (s : RngState) : RngState :=
  (6364136223846793005 * s + 1442695040888963407) % 18446744073709551616

/-- Draw `n` values from the generator, returning the draws and the
final generator state. -/
def drawN : RngState → Nat → List Nat × RngState
  | s, 0 => ([], s)
  | s, n + 1 =>
    let s' := rngNext s
    (s' :: (drawN s' n).1, (drawN s' n).2)

/-- A shopping record after the Normalizer ran (`pd.to_numeric` on the
prices, `<b>`/`</b>` stripped from the title): the fields the source's
dataframe holds just before the simulation block at lines 133–145.
`lprice` is kept as a plain natural number: the claims under study only
concern records whose price parsed. -/
structure NormItem where
  title : String
  lprice : Nat
  hprice : Option Nat
  mallName : String
  brand : String
  category1 : String
  category2 : String
  category3 : String
  category4 : String
  productType : String
  link : String
  deriving DecidableEq

/-- A shopping record after the simulation block added its derived
columns (source lines 133–145). -/
structure SimItem extends NormItem where
  p_type : String
  has_delivery_fee : String
  delivery_fee_amount : Nat
  option_price_range : String
  discount_rate : Nat
  original_price : Int
  deriving DecidableEq

/-- `f"{int(x*0.9):,} ~ {int(x*1.5):,}"` (source line 141): the option
price band derived from `lprice`.  `int(x*0.9)` and `int(x*1.5)` are the
truncated products, i.e. `9*x/10` and `3*x/2` in integer division; the
thousands separators of the Python format are elided (no claim depends
on the digit grouping, only on the band being a function of `lprice`). -/
def optionPriceRange (x : Nat) : String :=
  toString (9 * x / 10) ++ " ~ " ++ toString (3 * x / 2)

/-- `"광고/카탈로그" if x in ['2','3'] else "일반상품"` (source line 136). -/
def pTypeOf (productType : String) : String :=
  if productType = "2" ∨ productType = "3" then "광고/카탈로그" else "일반상품"

/-- Assemble the simulated records from the input records, the per-record
delivery-fee flags and the per-record discount rates (the three
`df[...] = ...` column assignments of source lines 136–145, item-wise).
`original_price = (lprice / (1 - discount_rate/100)).astype(int)`
truncates the exact quotient; for a non-negative quotient that is its
floor. -/
def simZip : List NormItem → List String → List Nat → List SimItem
  | it :: its, f :: fs, r :: rs =>
    { toNormItem := it
      p_type := pTypeOf it.productType
      has_delivery_fee := f
      delivery_fee_amount := if f = "유료" then 3000 else 0
      option_price_range := optionPriceRange it.lprice
      discount_rate := r
      original_price := ⌊(it.lprice : ℚ) / (1 - (r : ℚ) / 100)⌋ } :: simZip its fs rs
  | _, _, _ => []

/-- The simulation block of `get_shopping_data` (source lines 133–145):
`np.random.seed(42)` discards the incoming global generator state `g`;
`np.random.choice(["유료","무료"], size=n, p=[0.7,0.3])` draws one value
per record (a draw maps to `"유료"` on 7 of 10 residues, matching the
7/10 split), then `np.random.randint(0, 45, size=n)` draws one value per
record, reduced into the half-open range `[0,45)`.  Returns the
simulated records and the final generator state. -/
def augment (g : RngState) (items : List NormItem) : List SimItem × RngState :=
  let _ := g
  let s0 : RngState := 42
  let n := items.length
  let flags := (drawN s0 n).1.map (fun r => if r % 10 < 7 then "유료" else "무료")
  let s1 := (drawN s0 n).2
  let rates := (drawN s1 n).1.map (fun r => r % 45)
  (simZip items flags rates, (drawN s1 n).2)

/-! ## API Client: credentials, pagination and the three fetch functions -/

/-- `not CLIENT_ID` in the source: the credential read from the
environment is falsy when the variable is unset (`none`) or holds the
empty string. -/
def credMissing : Option String → Bool
  | none => true
  | some s => s = ""

/-- The start offsets of the paged shopping calls:
`range(1, total_display + 1, 100)` (source line 116) enumerates
`1, 101, 201, ...` while the offset stays `≤ total_display`. -/
def startOffsets (total_display : Nat) : List Nat :=
  (List.range ((total_display + 99) / 100)).map (fun i => 1 + 100 * i)

/-- The pagination loop of `get_shopping_data` (source lines 116–122):
issue the calls in offset order, appending each successful page's items;
a non-200 response (`none`) breaks the loop, keeping the items already
collected.  Returns the offsets actually called and the collected
items. -/
def fetchLoop (page : Nat → Option (List NormItem)) :
    List Nat → List Nat × List NormItem
  | [] => ([], [])
  | s :: rest =>
    match page s with
    | some its => (s :: (fetchLoop page rest).1, its ++ (fetchLoop page rest).2)
    | none => ([s], [])

/-- Outcome of one shopping fetch: the returned value (`none` is the
source's `return None`), the start offsets of the network calls issued,
and the global generator state after the call. -/
structure FetchResult where
  result : Option (List SimItem)
  calls : List Nat
  rng : RngState
  deriving DecidableEq

/-- `get_shopping_data` (source lines 105–147): missing credentials
return `None` before any network call; otherwise the pagination loop
runs, an empty collection returns `None`, and otherwise the simulation
block augments the normalized records.  The page oracle yields records
already normalized (the per-record numeric coercion and markup
stripping of lines 129–131 precede the simulated columns and are
order-preserving). -/
def get_shopping_data (cid cs : Option String) (g : RngState)
    (page : Nat → Option (List NormItem)) (total_display : Nat) : FetchResult :=
  if credMissing cid ∨ credMissing cs then ⟨none, [], g⟩
  else
    let calls := (fetchLoop page (startOffsets total_display)).1
    let all_items := (fetchLoop page (startOffsets total_display)).2
    if all_items.isEmpty then ⟨none, calls, g⟩
    else ⟨some (augment g all_items).1, calls, (augment g all_items).2⟩

/-- One group of the trend endpoint's response: `{title, data}` with
`data` a list of `(period, ratio)` points (`value` holds the source's
`ratio` column). -/
structure TrendGroup where
  title : String
  data : List (String × ℚ)
  deriving DecidableEq

/-- One row of the combined trend dataframe: `period`, the source's
`ratio` column (named `value` here) and the `keyword` column added per
group. -/
structure TrendPoint where
  period : String
  value : ℚ
  keyword : String
  deriving DecidableEq

/-- `get_datalab_trend` (source lines 83–103): missing credentials
return `None` with no network call; a non-200 response returns `None`;
otherwise each result group becomes a block of rows tagged with its
keyword, and `pd.concat(combined) if combined else None` returns `None`
exactly when the `results` list is empty.  The second component counts
network calls issued. -/
def get_datalab_trend (cid cs : Option String)
    (resp : Option (List TrendGroup)) : Option (List TrendPoint) × Nat :=
  if credMissing cid ∨ credMissing cs then (none, 0)
  else
    match resp with
    | none => (none, 1)
    | some results =>
      let combined := results.map (fun r =>
        r.data.map (fun d => TrendPoint.mk d.1 d.2 r.title))
      (if combined.isEmpty then none else some combined.flatten, 1)

/-- `'<b>'` / `'</b>'` removal applied to the free-text fields
(source lines 131, 157–158). -/
def stripBold (s : String) : String :=
  (s.replace "<b>" "").replace "</b>" ""

/-- `pd.to_datetime(postdate, format='%Y%m%d', errors='coerce')`
(source line 159): an 8-digit string parses to (year, month, day),
anything else coerces to a missing date.  The month and day ranges are
validated; the month-specific day maximum is not modelled (no claim
depends on it). -/
def parseDate (s : String) : Option (Nat × Nat × Nat) :=
  match s.toNat? with
  | some v =>
    if s.length = 8 then
      let m := v / 100 % 100
      let d := v % 100
      if 1 ≤ m ∧ m ≤ 12 ∧ 1 ≤ d ∧ d ≤ 31 then some (v / 10000, m, d) else none
    else none
  | none => none

/-- A raw blog record as decoded from the response. -/
structure RawBlog where
  title : String
  description : String
  bloggername : String
  postdate : String
  link : String
  deriving DecidableEq

/-- A normalized blog record. -/
structure BlogPost where
  title : String
  description : String
  bloggername : String
  postdate : Option (Nat × Nat × Nat)
  link : String
  deriving DecidableEq

/-- `get_blog_data` (source lines 149–161): missing credentials return
`None` with no network call; a non-200 response returns `None`;
otherwise the records are normalized (markup stripped, date parsed).
The second component counts network calls issued. -/
def get_blog_data (cid cs : Option String)
    (resp : Option (List RawBlog)) : Option (List BlogPost) × Nat :=
  if credMissing cid ∨ credMissing cs then (none, 0)
  else
    match resp with
    | none => (none, 1)
    | some items =>
      (some (items.map (fun b =>
        BlogPost.mk (stripBold b.title) (stripBold b.description)
          b.bloggername (parseDate b.postdate) b.link)), 1)

/-! ## Analytics Engine -/

/-- `pd.cut(lprice, bins=[0,10000,30000,50000,100000,1000000],
labels=[...]).astype(str)` (source lines 307–310): the cut buckets are
the left-open intervals `(0,10000]`, `(10000,30000]`, `(30000,50000]`,
`(50000,100000]`, `(100000,1000000]`; a price outside every bucket
(0, or above 1,000,000) becomes `NaN`, which `astype(str)` turns into
the string `"nan"`. -/
def price_tier (p : Nat) : String :=
  if p = 0 then "nan"
  else if p ≤ 10000 then "1만 이하"
  else if p ≤ 30000 then "1~3만"
  else if p ≤ 50000 then "3~5만"
  else if p ≤ 100000 then "5~10만"
  else if p ≤ 1000000 then "10만 이상"
  else "nan"

/-- `df.groupby('price_tier')['lprice'].count()` restricted to one tier
label: the number of items whose price lands in that tier
(source line 311). -/
def tierCount (prices : List Nat) (label : String) : Nat :=
  (prices.filter (fun p => price_tier p = label)).length

/-- `((value_counts(brand) / len(df)) ** 2).sum() * 10000`
(source lines 451–452): the Herfindahl–Hirschman index of the brand
column, market shares measured against the full record count. -/
def hhi (brands : List String) : ℚ :=
  10000 * ∑ b ∈ brands.toFinset, ((brands.count b : ℚ) / brands.length) ^ 2

/-- The stop-word list of source line 381. -/
def stopwords : List String :=
  ["있는", "위한", "추천", "대한", "및", "방법", "하는", "통해", "정보",
   "관련", "오늘", "진짜", "후기", "소개"]

/-- Stable descending insertion by count: a token is placed before the
first token of strictly smaller count, so equal counts keep their
first-encountered order — the tie behaviour of the source's
`value_counts`. -/
def insertDesc (x : String × Nat) : List (String × Nat) → List (String × Nat)
  | [] => [x]
  | y :: ys => if y.2 < x.2 then x :: y :: ys else y :: insertDesc x ys

/-- Stable descending sort by count. -/
def sortDesc : List (String × Nat) → List (String × Nat)
  | [] => []
  | x :: xs => insertDesc x (sortDesc xs)

/-- The distinct elements of a list in first-encountered order (the
index order of the source's `value_counts` result before sorting). -/
def firstDedup : List String → List String
  | [] => []
  | x :: xs => x :: (firstDedup xs).filter (fun y => y ≠ x)

/-- Character-level worker for whitespace splitting: `acc` holds the
characters of the token being read, in reverse. -/
def splitWsAux : List Char → List Char → List String
  | acc, [] => if acc.isEmpty then [] else [String.mk acc.reverse]
  | acc, c :: cs =>
    if c.isWhitespace then
      if acc.isEmpty then splitWsAux [] cs
      else String.mk acc.reverse :: splitWsAux [] cs
    else splitWsAux (c :: acc) cs

/-- Python's `str.split()` with no argument: split on runs of
whitespace, producing no empty tokens (source line 384). -/
def pySplit (s : String) : List String := splitWsAux [] s.data

/-- `" ".join(...)` over a list of strings (source line 379). -/
def joinSpace : List String → String
  | [] => ""
  | [x] => x
  | x :: xs => x ++ " " ++ joinSpace xs

/-- The keyword-frequency reducer (source lines 379–386): join every
post's `title + " " + description` with spaces, split on whitespace,
keep tokens of length `> 1` that are not stop words, count each distinct
token (distinct tokens in first-encountered order, as `value_counts`
over an object column), sort by descending count and take the top 20. -/
def keywordFreq (posts : List (String × String)) : List (String × Nat) :=
  let allText := joinSpace (posts.map (fun p => p.1 ++ " " ++ p.2))
  let words := (pySplit allText).filter
    (fun w => w.length > 1 && !(stopwords.contains w))
  (sortDesc ((firstDedup words).map (fun w => (w, words.count w)))).take 20

/-- The flags fed into `simZip` by `augment`, as a function of the item
count alone. -/
def flagSeq (n : Nat) : List String :=
  (drawN 42 n).1.map (fun r => if r % 10 < 7 then "유료" else "무료")

/-- The discount rates fed into `simZip` by `augment`, as a function of
the item count alone. -/
def rateSeq (n : Nat) : List Nat :=
  (drawN (drawN 42 n).2 n).1.map (fun r => r % 45)

/-- One concrete normalized shopping record used in witnesses. -/
def cItem : NormItem :=
  ⟨"상품", 50, none, "몰", "브랜드", "식품", "쌀", "백미", "기타", "1", "링크"⟩

/-- The record `augment` produces from `[cItem]`: the first generator
draw after seeding with 42 selects a paid delivery fee, the second gives
discount rate 35, and `50 / (1 - 0.35)` truncates to 76. -/
def cSimItem : SimItem :=
  { toNormItem := cItem, p_type := "일반상품", has_delivery_fee := "유료",
    delivery_fee_amount := 3000, option_price_range := "45 ~ 75",
    discount_rate := 35, original_price := 76 }

/-- A second concrete normalized record, sharing nothing but the shape
with `cItem`. -/
def dItem : NormItem :=
  ⟨"다른상품", 123456, some 200000, "다른몰", "다른브랜드", "가공식품", "잡곡",
    "혼합곡", "세트", "2", "다른링크"⟩

/-- A page oracle on which every call succeeds with a full page of 100
records. -/
def pageFull : Nat → Option (List NormItem) := fun _ => some (List.replicate 100 cItem)

/-- A page oracle whose third call (start offset 201) fails with a
non-success status after two full pages. -/
def pagePartial : Nat → Option (List NormItem) :=
  fun s => if s = 201 then none else some (List.replicate 100 cItem)

/-! ## Helper lemmas -/

theorem drawN_fst_length (n : Nat) : ∀ s : RngState, (drawN s n).1.length = n := by
  induction n with
  | zero => intro s; rfl
  | succ m ih => intro s; simp [drawN, ih]

theorem simZip_map_toNorm (its : List NormItem) :
    ∀ fs rs, its.length = List.length fs → its.length = List.length rs →
      (simZip its fs rs).map SimItem.toNormItem = its := by
  induction its with
  | nil => intro fs rs _ _; rfl
  | cons it its ih =>
    intro fs rs h1 h2
    cases fs with
    | nil => simp at h1
    | cons f fs =>
      cases rs with
      | nil => simp at h2
      | cons r rs =>
        simp only [List.length_cons, Nat.succ.injEq] at h1 h2
        simp [simZip, ih fs rs h1 h2]

theorem simZip_map_flag (its : List NormItem) :
    ∀ fs rs, its.length = List.length fs → its.length = List.length rs →
      (simZip its fs rs).map (fun s => s.has_delivery_fee) = fs := by
  induction its with
  | nil =>
    intro fs rs h1 _
    cases fs with
    | nil => rfl
    | cons f fs => simp at h1
  | cons it its ih =>
    intro fs rs h1 h2
    cases fs with
    | nil => simp at h1
    | cons f fs =>
      cases rs with
      | nil => simp at h2
      | cons r rs =>
        simp only [List.length_cons, Nat.succ.injEq] at h1 h2
        simp [simZip, ih fs rs h1 h2]

theorem simZip_map_rate (its : List NormItem) :
    ∀ fs rs, its.length = List.length fs → its.length = List.length rs →
      (simZip its fs rs).map (fun s => s.discount_rate) = rs := by
  induction its with
  | nil =>
    intro fs rs _ h2
    cases rs with
    | nil => rfl
    | cons r rs => simp at h2
  | cons it its ih =>
    intro fs rs h1 h2
    cases fs with
    | nil => simp at h1
    | cons f fs =>
      cases rs with
      | nil => simp at h2
      | cons r rs =>
        simp only [List.length_cons, Nat.succ.injEq] at h1 h2
        simp [simZip, ih fs rs h1 h2]

theorem simZip_mem (its : List NormItem) :
    ∀ fs rs, ∀ s ∈ simZip its fs rs,
      (∃ r ∈ rs, s.discount_rate = r) ∧
      s.original_price =
        ⌊(s.lprice : ℚ) / (1 - (s.discount_rate : ℚ) / 100)⌋ := by
  induction its with
  | nil => intro fs rs s hs; simp [simZip] at hs
  | cons it its ih =>
    intro fs rs s hs
    cases fs with
    | nil => simp [simZip] at hs
    | cons f fs =>
      cases rs with
      | nil => simp [simZip] at hs
      | cons r rs =>
        simp only [simZip, List.mem_cons] at hs
        rcases hs with h | h
        · subst h
          exact ⟨⟨r, List.mem_cons_self r rs, rfl⟩, rfl⟩
        · obtain ⟨⟨r', hr', he⟩, hp⟩ := ih fs rs s h
          exact ⟨⟨r', List.mem_cons_of_mem r hr', he⟩, hp⟩

theorem augment_eq (g : RngState) (items : List NormItem) :
    augment g items =
      (simZip items (flagSeq items.length) (rateSeq items.length),
        (drawN (drawN 42 items.length).2 items.length).2) := rfl

theorem flagSeq_length (n : Nat) : (flagSeq n).length = n := by
  simp [flagSeq, drawN_fst_length]

theorem rateSeq_length (n : Nat) : (rateSeq n).length = n := by
  simp [rateSeq, drawN_fst_length]

theorem augment_map_toNorm (g : RngState) (items : List NormItem) :
    (augment g items).1.map SimItem.toNormItem = items := by
  rw [augment_eq]
  exact simZip_map_toNorm items _ _ (by rw [flagSeq_length])
    (by rw [rateSeq_length])

theorem augment_length (g : RngState) (items : List NormItem) :
    (augment g items).1.length = items.length := by
  have h := congrArg List.length (augment_map_toNorm g items)
  simpa using h

theorem fetchLoop_all_empty (page : Nat → Option (List NormItem))
    (hp : ∀ s, page s = some []) :
    ∀ l : List Nat, (fetchLoop page l).2 = [] := by
  intro l
  induction l with
  | nil => rfl
  | cons s rest ih => simp [fetchLoop, hp s, ih]

theorem fetchLoop_fail_one (page : Nat → Option (List NormItem))
    (hp : page 1 = none) (td : Nat) :
    (fetchLoop page (startOffsets td)).2 = [] := by
  unfold startOffsets
  cases h : (td + 99) / 100 with
  | zero => rfl
  | succ m =>
    rw [List.range_succ_eq_map]
    simp only [List.map_cons, Nat.mul_zero, Nat.add_zero]
    simp [fetchLoop, hp]

theorem shopping_calls_eq (cid cs : Option String) (g : RngState)
    (page : Nat → Option (List NormItem)) (td : Nat)
    (hc : ¬(credMissing cid ∨ credMissing cs)) :
    (get_shopping_data cid cs g page td).calls =
      (fetchLoop page (startOffsets td)).1 := by
  simp only [get_shopping_data, if_neg hc]
  split <;> rfl

theorem shopping_result_length (cid cs : Option String) (g : RngState)
    (page : Nat → Option (List NormItem)) (td : Nat)
    (hc : ¬(credMissing cid ∨ credMissing cs))
    (hne : (fetchLoop page (startOffsets td)).2 ≠ []) :
    (get_shopping_data cid cs g page td).result.map List.length =
      some ((fetchLoop page (startOffsets td)).2.length) := by
  simp only [get_shopping_data, if_neg hc]
  rw [if_neg (by simpa [List.isEmpty_iff] using hne)]
  simp [augment_length]

theorem augment_single_eval : (augment 0 [cItem]).1 = [cSimItem] := by
  rw [augment_eq]
  have hf : flagSeq (List.length [cItem]) = ["유료"] := by decide
  have hr : rateSeq (List.length [cItem]) = [35] := by decide
  rw [hf, hr]
  simp only [simZip, cSimItem, cItem, pTypeOf, optionPriceRange]
  norm_num [SimItem.mk.injEq]
  exact ⟨fun h => absurd h (by decide), by decide⟩

/-! ## Claims -/

/-- C1: for every raw shopping payload and fixed input record ordering,
the shopping acquisition/simulation step is deterministic — two runs
over the same pages, started from arbitrary (different) global
generator states, return bit-identical results, every simulated field
(delivery-fee flag, fee amount, discount rate, original price, option
price band) included, because `np.random.seed(42)` re-seeds the
generator before the draws of each run. -/
theorem shopping_simulation_deterministic (cid cs : Option String)
    (g1 g2 : RngState) (page : Nat → Option (List NormItem)) (td : Nat) :
    (get_shopping_data cid cs g1 page td).result =
      (get_shopping_data cid cs g2 page td).result := by
  by_cases hc : credMissing cid ∨ credMissing cs
  · simp [get_shopping_data, hc]
  · simp only [get_shopping_data, if_neg hc]
    by_cases he : ((fetchLoop page (startOffsets td)).2).isEmpty
    · simp [he]
    · simp [he, augment_eq]

/-- C8: the simulation step rewrites no field the Normalizer populated
from real data — mapping each simulated record back to its normalized
part (title, low/high price, mall name, brand, the four category
levels, product type code, link) recovers the input records exactly;
the simulation only adds new derived fields. -/
theorem simulation_preserves_normalized_fields (g : RngState)
    (items : List NormItem) :
    (augment g items).1.map SimItem.toNormItem = items :=
  augment_map_toNorm g items

/-- C10: because the generator is re-seeded with 42 inside every
shopping fetch, the sequences of simulated delivery-fee flags and
discount rates depend only on the number of items, not on their
contents: two item lists of equal length receive identical flag and
rate sequences position by position, whatever the prior generator
states were. -/
theorem simulated_sequence_depends_only_on_count (g1 g2 : RngState)
    (items1 items2 : List NormItem) (h : items1.length = items2.length) :
    (augment g1 items1).1.map (fun s => s.has_delivery_fee) =
      (augment g2 items2).1.map (fun s => s.has_delivery_fee) ∧
    (augment g1 items1).1.map (fun s => s.discount_rate) =
      (augment g2 items2).1.map (fun s => s.discount_rate) := by
  rw [augment_eq g1 items1, augment_eq g2 items2]
  constructor
  · rw [simZip_map_flag items1 _ _ (flagSeq_length _).symm (rateSeq_length _).symm,
      simZip_map_flag items2 _ _ (flagSeq_length _).symm (rateSeq_length _).symm, h]
  · rw [simZip_map_rate items1 _ _ (flagSeq_length _).symm (rateSeq_length _).symm,
      simZip_map_rate items2 _ _ (flagSeq_length _).symm (rateSeq_length _).symm, h]

/-- Witness for C10: two different 2-item inputs receive identical flag
and rate sequences. -/
theorem simulated_sequence_depends_only_on_count_witness :
    (augment 0 [cItem, dItem]).1.map (fun s => s.has_delivery_fee) =
      (augment 99 [dItem, cItem]).1.map (fun s => s.has_delivery_fee) ∧
    (augment 0 [cItem, dItem]).1.map (fun s => s.discount_rate) =
      (augment 99 [dItem, cItem]).1.map (fun s => s.discount_rate) :=
  simulated_sequence_depends_only_on_count 0 99 [cItem, dItem] [dItem, cItem]
    (by decide)

/-- C4: when either credential is absent (unset or empty), each of the
three acquisition functions returns its failure value (`None`)
immediately and issues zero network calls. -/
theorem missing_credentials_no_calls (cid cs : Option String)
    (g : RngState) (page : Nat → Option (List NormItem)) (td : Nat)
    (resp : Option (List TrendGroup)) (respB : Option (List RawBlog))
    (h : credMissing cid ∨ credMissing cs) :
    get_datalab_trend cid cs resp = (none, 0) ∧
    get_shopping_data cid cs g page td = ⟨none, [], g⟩ ∧
    get_blog_data cid cs respB = (none, 0) := by
  refine ⟨?_, ?_, ?_⟩
  · simp only [get_datalab_trend, if_pos h]
  · simp only [get_shopping_data, if_pos h]
  · simp only [get_blog_data, if_pos h]

/-- Witness for C4: an empty client id (with the secret present) makes
all three functions fail with no network call. -/
theorem missing_credentials_no_calls_witness :
    get_datalab_trend (some "") (some "secret")
        (some [TrendGroup.mk "쌀" [("2025-01-01", 50)]]) = (none, 0) ∧
    get_shopping_data (some "") (some "secret") 0
        (fun _ => some [cItem]) 100 = ⟨none, [], 0⟩ ∧
    get_blog_data (some "") (some "secret")
        (some [RawBlog.mk "제목" "내용" "블로거" "20250101" "링크"]) = (none, 0) :=
  missing_credentials_no_calls (some "") (some "secret") 0
    (fun _ => some [cItem]) 100
    (some [TrendGroup.mk "쌀" [("2025-01-01", 50)]])
    (some [RawBlog.mk "제목" "내용" "블로거" "20250101" "링크"])
    (by decide)

/-- C9: with credentials present, an acquisition that yields zero
records returns the same failure value `None` that an upstream error
produces: all-empty shopping pages, a failing first shopping page, an
empty trend `results` list and a failing trend call are all reported as
`None`, so the public interface cannot distinguish an empty result set
from an acquisition failure. -/
theorem empty_acquisition_returns_none (cid cs : Option String)
    (g : RngState) (page pageF : Nat → Option (List NormItem)) (td : Nat)
    (hc : ¬(credMissing cid ∨ credMissing cs))
    (hp : ∀ s, page s = some [])
    (hf : pageF 1 = none) :
    (get_shopping_data cid cs g page td).result = none ∧
    (get_shopping_data cid cs g pageF td).result = none ∧
    (get_datalab_trend cid cs (some [])).1 = none ∧
    (get_datalab_trend cid cs none).1 = none := by
  refine ⟨?_, ?_, ?_, ?_⟩
  · simp [get_shopping_data, hc, fetchLoop_all_empty page hp]
  · simp [get_shopping_data, hc, fetchLoop_fail_one pageF hf td]
  · simp [get_datalab_trend, hc]
  · simp [get_datalab_trend, hc]

/-- Witness for C9: concrete empty-but-successful and failing
acquisitions both return `None`. -/
theorem empty_acquisition_returns_none_witness :
    (get_shopping_data (some "id") (some "secret") 0
        (fun _ => some []) 250).result = none ∧
    (get_shopping_data (some "id") (some "secret") 0
        (fun _ => none) 250).result = none ∧
    (get_datalab_trend (some "id") (some "secret") (some [])).1 = none ∧
    (get_datalab_trend (some "id") (some "secret") none).1 = none :=
  empty_acquisition_returns_none (some "id") (some "secret") 0
    (fun _ => some []) (fun _ => none) 250
    (by decide) (fun _ => rfl) rfl

/-- C3 counterexample: the claim computes `original_price` by rounding
to the nearest integer, but the source's `astype(int)` truncates.  On
the concrete input `cItem` (low price 50) the simulation draws discount
rate 35 and stores `⌊50 / 0.65⌋ = 76`, while rounding `50 / 0.65 =
76.92…` gives 77. -/
theorem original_price_truncates_cx :
    (augment 0 [cItem]).1.map (fun s => (s.discount_rate, s.original_price)) =
      [(35, 76)] ∧
    round ((50 : ℚ) / (1 - (35 : ℚ) / 100)) = 77 ∧ (76 : Int) ≠ 77 := by
  refine ⟨?_, ?_, by decide⟩
  · rw [augment_single_eval]; rfl
  · rw [round_eq, Int.floor_eq_iff]
    norm_num

/-- C3 as amended: for every simulated record, the discount rate lies in
the integer interval `[0, 45)` (it is a natural number below 45), and
the derived original price is the quotient `low_price /
(1 − discount_rate/100)` truncated to an integer (its floor), not
rounded to the nearest integer. -/
theorem discount_rate_range_price_floor (g : RngState)
    (items : List NormItem) (s : SimItem)
    (hs : s ∈ (augment g items).1) :
    s.discount_rate < 45 ∧
    s.original_price =
      ⌊(s.lprice : ℚ) / (1 - (s.discount_rate : ℚ) / 100)⌋ := by
  rw [augment_eq] at hs
  obtain ⟨⟨r, hr, he⟩, hp⟩ := simZip_mem items _ _ s hs
  refine ⟨?_, hp⟩
  rw [he]
  simp only [rateSeq, List.mem_map] at hr
  obtain ⟨r', _, hr'⟩ := hr
  omega

/-- Witness for C3 (amended): the concrete simulated record produced
from `cItem` has discount rate 35 < 45 and original price
`⌊50 / 0.65⌋`. -/
theorem discount_rate_range_price_floor_witness :
    cSimItem.discount_rate < 45 ∧
    cSimItem.original_price =
      ⌊(cSimItem.lprice : ℚ) / (1 - (cSimItem.discount_rate : ℚ) / 100)⌋ :=
  discount_rate_range_price_floor 0 [cItem] cSimItem
    (by rw [augment_single_eval]; exact List.mem_singleton_self cSimItem)

/-- C5 counterexample: the price-tier cut has an upper edge at
1,000,000, so an item priced 1,000,001 is not counted in the top band
(`pd.cut` yields `NaN`, rendered `"nan"`), contradicting the claim that
every item with `low_price > 100,000`, no matter how large, lands in
the top band. -/
theorem price_tier_top_band_cx :
    price_tier 1000001 = "nan" ∧ price_tier 1000001 ≠ "10만 이상" ∧
    tierCount [1000001] "10만 이상" = 0 := by
  refine ⟨rfl, by decide, by decide⟩

/-- C5 as amended: the tiering buckets `low_price` into the left-open
bands `(0,10000]`, `(10000,30000]`, `(30000,50000]`, `(50000,100000]`
and `(100000,1000000]` and counts membership per band; a price of 0 or
above the 1,000,000 upper edge falls outside every band (the `"nan"`
bucket) — in particular items with `low_price > 1,000,000` are not
counted in the top band. -/
theorem price_tier_bands (p : Nat) :
    (price_tier p = "1만 이하" ↔ 0 < p ∧ p ≤ 10000) ∧
    (price_tier p = "1~3만" ↔ 10000 < p ∧ p ≤ 30000) ∧
    (price_tier p = "3~5만" ↔ 30000 < p ∧ p ≤ 50000) ∧
    (price_tier p = "5~10만" ↔ 50000 < p ∧ p ≤ 100000) ∧
    (price_tier p = "10만 이상" ↔ 100000 < p ∧ p ≤ 1000000) ∧
    (price_tier p = "nan" ↔ p = 0 ∨ 1000000 < p) := by
  unfold price_tier
  split_ifs <;> refine ⟨?_, ?_, ?_, ?_, ?_, ?_⟩ <;> simp_all <;> omega

/-- C2 counterexample: with `requested_count = 250` and every page call
succeeding with a full page, the client does issue exactly 3 calls at
offsets 1, 101, 201 — but every call requests `display=100`, so the
returned collection holds 300 records, contradicting the claimed bound
of at most 250. -/
theorem pagination_overfetch_cx :
    (get_shopping_data (some "id") (some "secret") 0 pageFull 250).calls =
      [1, 101, 201] ∧
    (get_shopping_data (some "id") (some "secret") 0 pageFull 250).result.map
      List.length = some 300 ∧ ¬(300 ≤ 250) := by
  have hc : ¬(credMissing (some "id") ∨ credMissing (some "secret")) := by decide
  have hfl : fetchLoop pageFull (startOffsets 250) =
      ([1, 101, 201],
        List.replicate 100 cItem ++
          (List.replicate 100 cItem ++ (List.replicate 100 cItem ++ []))) := rfl
  have hne : (fetchLoop pageFull (startOffsets 250)).2 ≠ [] := by
    rw [hfl]
    intro h
    have := congrArg List.length h
    simp only [List.length_append, List.length_replicate, List.length_nil] at this
    omega
  refine ⟨?_, ?_, by omega⟩
  · rw [shopping_calls_eq _ _ _ _ _ hc, hfl]
  · rw [shopping_result_length _ _ _ _ _ hc hne, hfl]
    simp only [List.length_append, List.length_replicate, List.length_nil]

/-- C2 as amended: for a shopping fetch with `requested_count = 250` and
every page call succeeding with a full page of 100 records, the client
issues exactly 3 paged calls advancing the start offset by 100 per call
(offsets 1, 101, 201) and returns 300 records — each call requests 100
records, so the result is not trimmed to the requested 250; and if the
third call fails instead, the 3 calls are still issued and the 200
records of the two pages already fetched are returned rather than
discarded. -/
theorem pagination_250_three_calls (cid cs : Option String) (g : RngState)
    (page pageP : Nat → Option (List NormItem)) (l1 l2 l3 : List NormItem)
    (hc : ¬(credMissing cid ∨ credMissing cs))
    (h1 : page 1 = some l1) (h2 : page 101 = some l2) (h3 : page 201 = some l3)
    (e1 : l1.length = 100) (e2 : l2.length = 100) (e3 : l3.length = 100)
    (h1' : pageP 1 = some l1) (h2' : pageP 101 = some l2)
    (h3' : pageP 201 = none) :
    (get_shopping_data cid cs g page 250).calls = [1, 101, 201] ∧
    (get_shopping_data cid cs g page 250).result.map List.length = some 300 ∧
    (get_shopping_data cid cs g pageP 250).calls = [1, 101, 201] ∧
    (get_shopping_data cid cs g pageP 250).result.map List.length =
      some 200 := by
  have hso : startOffsets 250 = [1, 101, 201] := rfl
  have hfl : fetchLoop page (startOffsets 250) =
      ([1, 101, 201], l1 ++ (l2 ++ (l3 ++ []))) := by
    rw [hso]; simp [fetchLoop, h1, h2, h3]
  have hfl' : fetchLoop pageP (startOffsets 250) =
      ([1, 101, 201], l1 ++ (l2 ++ [])) := by
    rw [hso]; simp [fetchLoop, h1', h2', h3']
  have hne : (fetchLoop page (startOffsets 250)).2 ≠ [] := by
    rw [hfl]
    intro h
    have := congrArg List.length h
    simp [e1] at this
  have hne' : (fetchLoop pageP (startOffsets 250)).2 ≠ [] := by
    rw [hfl']
    intro h
    have := congrArg List.length h
    simp [e1] at this
  refine ⟨?_, ?_, ?_, ?_⟩
  · rw [shopping_calls_eq _ _ _ _ _ hc, hfl]
  · rw [shopping_result_length _ _ _ _ _ hc hne, hfl]
    simp [e1, e2, e3]
  · rw [shopping_calls_eq _ _ _ _ _ hc, hfl']
  · rw [shopping_result_length _ _ _ _ _ hc hne', hfl']
    simp [e1, e2]

/-- Witness for C2 (amended): the concrete all-success and
fails-at-201 page oracles. -/
theorem pagination_250_three_calls_witness :
    (get_shopping_data (some "id") (some "secret") 0 pageFull 250).calls =
      [1, 101, 201] ∧
    (get_shopping_data (some "id") (some "secret") 0 pageFull 250).result.map
      List.length = some 300 ∧
    (get_shopping_data (some "id") (some "secret") 0 pagePartial 250).calls =
      [1, 101, 201] ∧
    (get_shopping_data (some "id") (some "secret") 0 pagePartial 250).result.map
      List.length = some 200 :=
  pagination_250_three_calls (some "id") (some "secret") 0 pageFull pagePartial
    (List.replicate 100 cItem) (List.replicate 100 cItem)
    (List.replicate 100 cItem)
    (by decide) rfl rfl rfl (by simp) (by simp) (by simp) rfl rfl rfl

theorem toFinset_replicate_pos (n : Nat) (hn : 0 < n) (b : String) :
    (List.replicate n b).toFinset = {b} := by
  ext x
  simp [List.mem_replicate, hn.ne']

theorem toFinset_two_replicates (n : Nat) (hn : 0 < n) (a b : String) :
    (List.replicate n a ++ List.replicate n b).toFinset = {a, b} := by
  ext x
  simp [List.mem_replicate, hn.ne']

theorem count_replicate_same (n : Nat) (b : String) :
    (List.replicate n b).count b = n := by
  induction n with
  | zero => rfl
  | succ m ih => simp [List.replicate_succ, List.count_cons, ih]

theorem count_replicate_other (n : Nat) (a b : String) (h : a ≠ b) :
    (List.replicate n b).count a = 0 := by
  induction n with
  | zero => rfl
  | succ m ih => simp [List.replicate_succ, List.count_cons, ih, h]

/-- C6: the brand concentration index is 10,000 times the sum of the
squared market shares; in particular a corpus of `n > 0` records held
entirely by one brand has HHI 10,000, and a corpus split half-and-half
between two distinct brands has HHI 5,000. -/
theorem hhi_concentration (a b : String) (n : Nat) (hn : 0 < n)
    (hab : a ≠ b) :
    hhi (List.replicate n b) = 10000 ∧
    hhi (List.replicate n a ++ List.replicate n b) = 5000 := by
  have hq : (n : ℚ) ≠ 0 := Nat.cast_ne_zero.mpr hn.ne'
  have hq2 : (n : ℚ) + n ≠ 0 := by
    have h0 : (0 : ℚ) < n := by exact_mod_cast hn
    positivity
  constructor
  · rw [hhi, toFinset_replicate_pos n hn b, Finset.sum_singleton,
      count_replicate_same, List.length_replicate, div_self hq]
    norm_num
  · rw [hhi, toFinset_two_replicates n hn a b,
      Finset.sum_insert (by simp [hab]), Finset.sum_singleton,
      List.count_append, List.count_append,
      count_replicate_same, count_replicate_same,
      count_replicate_other n a b hab, count_replicate_other n b a hab.symm,
      List.length_append, List.length_replicate]
    push_cast
    field_simp
    ring

/-- Witness for C6: a 2-record single-brand corpus has HHI 10,000 and a
2+2 two-brand corpus has HHI 5,000. -/
theorem hhi_concentration_witness :
    hhi (List.replicate 2 "곰표") = 10000 ∧
    hhi (List.replicate 2 "농협" ++ List.replicate 2 "곰표") = 5000 :=
  hhi_concentration "농협" "곰표" 2 (by decide) (by decide)

theorem mem_insertDesc (x z : String × Nat) (l : List (String × Nat)) :
    z ∈ insertDesc x l ↔ z = x ∨ z ∈ l := by
  induction l with
  | nil => simp [insertDesc]
  | cons y ys ih =>
    simp only [insertDesc]
    split_ifs
    · simp [List.mem_cons]
    · simp [List.mem_cons, ih]
      tauto

theorem insertDesc_sorted (x : String × Nat) (l : List (String × Nat))
    (h : l.Pairwise (fun p q => q.2 ≤ p.2)) :
    (insertDesc x l).Pairwise (fun p q => q.2 ≤ p.2) := by
  induction l with
  | nil => simp [insertDesc]
  | cons y ys ih =>
    rcases h with - | ⟨hy, hys⟩
    simp only [insertDesc]
    split_ifs with hxy
    · refine List.Pairwise.cons ?_ (List.Pairwise.cons hy hys)
      intro z hz
      rcases List.mem_cons.mp hz with hz | hz
      · exact hz ▸ hxy.le
      · exact le_trans (hy z hz) hxy.le
    · refine List.Pairwise.cons ?_ (ih hys)
      intro z hz
      rcases (mem_insertDesc x z ys).mp hz with hz | hz
      · exact hz ▸ le_of_not_lt hxy
      · exact hy z hz

theorem sortDesc_sorted (l : List (String × Nat)) :
    (sortDesc l).Pairwise (fun p q => q.2 ≤ p.2) := by
  induction l with
  | nil => exact List.Pairwise.nil
  | cons x xs ih => exact insertDesc_sorted x (sortDesc xs) ih

/-- C7: keyword extraction splits the concatenated blog text on
whitespace, discards tokens of length ≤ 1 and stop words, counts the
rest and returns the top 20 by descending count; on the corpus
`"신동진쌀 후기 신동진쌀 좋아요"` the table ranks `"신동진쌀"` (count 2)
above `"좋아요"` (count 1) with the stop word `"후기"` excluded, and on
any corpus the table has at most 20 entries, listed in descending count
order. -/
theorem keyword_frequency_top20 :
    keywordFreq [("신동진쌀 후기", "신동진쌀 좋아요")] =
      [("신동진쌀", 2), ("좋아요", 1)] ∧
    ∀ posts : List (String × String), (keywordFreq posts).length ≤ 20 ∧
      (keywordFreq posts).Pairwise (fun p q => q.2 ≤ p.2) := by
  refine ⟨by decide, fun posts => ⟨List.length_take_le 20 _, ?_⟩⟩
  exact List.Pairwise.sublist (List.take_sublist 20 _) (sortDesc_sorted _)
